import Mathlib

/-!
Shallow embedding of `src/ReaclibRate.hpp` / `src/ReaclibRate.cpp`: the class
`ReaclibRate`, a JINA REACLIB reaction-rate model built on a ROOT `TF1`
parameter store.

Machine floating-point arithmetic is modelled by exact real arithmetic:
`double`/`float` become `ℝ`, `log`/`exp` become `Real.log`/`Real.exp`, and the
C `pow` with a real exponent becomes `Real.rpow`.  The inherited `TF1`
parameter store is modelled by a list of parameter values together with a
parallel list of fixed flags; `TF1` parameter stores are bounds-checked, so a
write at an out-of-range index leaves the store unchanged (`List.set`
semantics) and a read at an out-of-range index yields the default `0`
(`List.getD` semantics).
-/

namespace ReaclibRate

/-- Constant `b_ = 7.8318E9` used for the non-resonant a0 term
(`static constexpr float b_` in `ReaclibRate.hpp`). -/
def b_ : ℝ := 7.8318e9

/-- Constant `d_ = 1.5394E11` used for the resonant a0 term
(`static constexpr float d_` in `ReaclibRate.hpp`). -/
def d_ : ℝ := 1.5394e11

end ReaclibRate

/-- State of a `ReaclibRate` object: the member fields of the C++ class
together with the parameter/fixed-flag store inherited from `TF1`. -/
structure ReaclibRate where
  name : String
  numResonances : ℕ
  z1 : ℕ
  z2 : ℕ
  mu_amu : ℝ
  parameters : List ℝ
  fixedMask : List Bool

namespace ReaclibRate

/-- Model of `TF1::SetParameter(i, v)`: store `v` at index `i`
(a write at an out-of-range index leaves the store unchanged). -/
def SetParameter (r : ReaclibRate) (i : ℕ) (v : ℝ) : ReaclibRate :=
  { r with parameters := r.parameters.set i v }

/-- Model of `TF1::FixParameter(i, v)`: store `v` at index `i` and mark the
parameter as fixed. -/
def FixParameter (r : ReaclibRate) (i : ℕ) (v : ℝ) : ReaclibRate :=
  { r with parameters := r.parameters.set i v,
           fixedMask := r.fixedMask.set i true }

/-- Model of `TF1::GetParameter(i)`: read the value stored at index `i`. -/
def GetParameter (r : ReaclibRate) (i : ℕ) : ℝ :=
  r.parameters.getD i 0

/-- Body of the `for (unsigned int i=0;i<numResonances_;i++)` loop of the
constructor `ReaclibRate::ReaclibRate`: seed resonance block `i`
(a0 and a1 free seeds, a2..a5 fixed to `0`, a6 fixed to `-3/2`), with the
inner `for (int j=2;j<=5;j++)` loop unrolled. -/
noncomputable def initResonance (r : ReaclibRate) (i : ℕ) : ReaclibRate :=
  ((((((r.SetParameter (7 * (i + 1) + 0)
      (Real.log (d_ * r.mu_amu ^ (-(3:ℝ)/2)))).SetParameter
      (7 * (i + 1) + 1) (-11.6045)).FixParameter
      (7 * (i + 1) + 2) 0).FixParameter
      (7 * (i + 1) + 3) 0).FixParameter
      (7 * (i + 1) + 4) 0).FixParameter
      (7 * (i + 1) + 5) 0).FixParameter
      (7 * (i + 1) + 6) (-(3:ℝ)/2)

/-- Model of the charged-particle constructor `ReaclibRate::ReaclibRate`: the
`TF1` base allocates `7*(numResonances+1)` parameters (initialised to zero and
free), the non-resonant block is seeded (a0 free seed, a1 fixed to `0`, a2
fixed to `-4.2486*((z1*z2)^2*mu)^(1/3)`, a6 fixed to `-2/3`), and each
resonance block is seeded by `initResonance`. -/
noncomputable def construct (name : String) (numResonances z1 z2 : ℕ)
    (mu : ℝ) : ReaclibRate :=
  let r0 : ReaclibRate :=
    { name := name, numResonances := numResonances, z1 := z1, z2 := z2,
      mu_amu := mu,
      parameters := List.replicate (7 * (numResonances + 1)) 0,
      fixedMask := List.replicate (7 * (numResonances + 1)) false }
  let r1 := r0.SetParameter 0
    (Real.log (b_ * ((z1 : ℝ) * (z2 : ℝ) * mu) ^ ((1:ℝ)/3)))
  let r2 := r1.FixParameter 1 0
  let r3 := r2.FixParameter 2
    (-4.2486 * (((z1 : ℝ) * (z2 : ℝ)) ^ (2:ℝ) * mu) ^ ((1:ℝ)/3))
  let r4 := r3.FixParameter 6 (-2/3)
  (List.range numResonances).foldl initResonance r4

/-- Model of `ReaclibRate::SetSFactor`: fix the non-resonant a0 to
`log(b_ * (z1*z2*mu)^(1/3) * s0)`. -/
noncomputable def SetSFactor (r : ReaclibRate) (s0_MeVb : ℝ) : ReaclibRate :=
  r.FixParameter 0
    (Real.log (b_ * ((r.z1 : ℝ) * (r.z2 : ℝ) * r.mu_amu) ^ ((1:ℝ)/3) * s0_MeVb))

/-- Indices written by `ReaclibRate::SetResonance` for a given `resonanceId`:
`7*(resonanceId+1) + 0` (the a0 term) and `7*(resonanceId+1) + 1` (the a1
term). -/
def setResonanceTargets (resonanceId : ℕ) : ℕ × ℕ :=
  (7 * (resonanceId + 1) + 0, 7 * (resonanceId + 1) + 1)

/-- Range guard of `ReaclibRate::SetResonance`:
`resonanceId <= numResonances_`. -/
def setResonanceGuard (r : ReaclibRate) (resonanceId : ℕ) : Bool :=
  decide (resonanceId ≤ r.numResonances)

/-- Model of `ReaclibRate::SetResonance`: if the guard passes, fix the target
block's a0 to `log(d_ * mu^(-3/2) * strength)` and a1 to `-11.6045 * energy`;
otherwise do nothing. -/
noncomputable def SetResonance (r : ReaclibRate) (resonanceId : ℕ)
    (energy strength : ℝ) : ReaclibRate :=
  if setResonanceGuard r resonanceId then
    (r.FixParameter (setResonanceTargets resonanceId).1
        (Real.log (d_ * r.mu_amu ^ (-(3:ℝ)/2) * strength))).FixParameter
      (setResonanceTargets resonanceId).2 (-11.6045 * energy)
  else r

/-- Model of `ReaclibRate::GetReducedMass`: invert the a2 seed,
`(a2 / -4.2486)^3 / (z1*z2)^2`. -/
noncomputable def GetReducedMass (r : ReaclibRate) : ℝ :=
  (r.GetParameter 2 / -4.2486) ^ (3:ℝ) / ((r.z1 : ℝ) * (r.z2 : ℝ)) ^ (2:ℝ)

/-- Model of `ReaclibRate::GetSFactor`:
`exp(a0) / b_ / (z1*z2*GetReducedMass())^(1/3)`. -/
noncomputable def GetSFactor (r : ReaclibRate) : ℝ :=
  Real.exp (r.GetParameter 0) / b_ /
    ((r.z1 : ℝ) * (r.z2 : ℝ) * r.GetReducedMass) ^ ((1:ℝ)/3)

/-- Model of `ReaclibRate::GetResonanceEnergy`: `-1` when
`resonanceId > numResonances_`, else `a1 / -11.6045` read at index
`7*resonanceId + 1` (the source applies no `+1` block shift here). -/
noncomputable def GetResonanceEnergy (r : ReaclibRate)
    (resonanceId : ℕ) : ℝ :=
  if r.numResonances < resonanceId then -1
  else r.GetParameter (7 * resonanceId + 1) / -11.6045

/-- Model of `ReaclibRate::GetResonanceStrength`: `-1` when
`resonanceId > numResonances_`, else
`exp(a0) / d_ / GetReducedMass()^(-3/2)` with a0 read at index
`7*resonanceId + 0` (the source applies no `+1` block shift here). -/
noncomputable def GetResonanceStrength (r : ReaclibRate)
    (resonanceId : ℕ) : ℝ :=
  if r.numResonances < resonanceId then -1
  else Real.exp (r.GetParameter (7 * resonanceId + 0)) / d_ /
    r.GetReducedMass ^ (-(3:ℝ)/2)

/-- Exponent of component `i` in `ReaclibRate::Evaluate`: starts from
`par[7i+0] + par[7i+6]*log(t9)` and accumulates
`par[7i+j] * t9^((2j-5)/3)` over the inner loop `j = 1..5`. -/
noncomputable def evalComponent (t9 : ℝ) (par : List ℝ) (i : ℕ) : ℝ :=
  (List.range' 1 5).foldl
    (fun component j =>
      component + par.getD (7 * i + j) 0 * t9 ^ ((2 * (j:ℝ) - 5) / 3))
    (par.getD (7 * i + 0) 0 + par.getD (7 * i + 6) 0 * Real.log t9)

/-- Model of `ReaclibRate::Evaluate`: accumulate `exp(component_i)` over the
non-resonant block and the `numResonances_` resonance blocks. -/
noncomputable def Evaluate (r : ReaclibRate) (t9 : ℝ) (par : List ℝ) : ℝ :=
  (List.range (r.numResonances + 1)).foldl
    (fun reacRate i => reacRate + Real.exp (evalComponent t9 par i)) 0

/-- External mutation steps considered by the spec after construction: calls
to `SetSFactor` and `SetResonance`. -/
inductive RateOp where
  | sfactor (s : ℝ)
  | resonance (id : ℕ) (energy strength : ℝ)

/-- Apply one mutation step. -/
noncomputable def applyOp (r : ReaclibRate) : RateOp → ReaclibRate
  | .sfactor s => r.SetSFactor s
  | .resonance id e w => r.SetResonance id e w

/-- Apply a sequence of mutation steps, in order. -/
noncomputable def applyOps (r : ReaclibRate) (ops : List RateOp) : ReaclibRate :=
  ops.foldl applyOp r

/-! ### Generic list lemmas for the bounds-checked parameter store -/

lemma getD_set_ne {l : List ℝ} {v d : ℝ} {i j : ℕ} (h : i ≠ j) :
    (l.set i v).getD j d = l.getD j d := by
  simp [List.getD_eq_getElem?_getD, List.getElem?_set_ne h]

lemma getD_set_self {l : List ℝ} {v d : ℝ} {i : ℕ} (h : i < l.length) :
    (l.set i v).getD i d = v := by
  simp [List.getD_eq_getElem?_getD, List.getElem?_set_eq_of_lt _ h]

lemma getD_replicate_lt {n i : ℕ} (a d : ℝ) (h : i < n) :
    (List.replicate n a).getD i d = a := by
  rw [List.getD_eq_getElem _ _ (by simpa using h)]
  exact List.getElem_replicate ..

/-! ### Projection and length facts for the primitive operations -/

@[simp] lemma SetParameter_numResonances (r : ReaclibRate) (i : ℕ) (v : ℝ) :
    (r.SetParameter i v).numResonances = r.numResonances := rfl

@[simp] lemma SetParameter_z1 (r : ReaclibRate) (i : ℕ) (v : ℝ) :
    (r.SetParameter i v).z1 = r.z1 := rfl

@[simp] lemma SetParameter_z2 (r : ReaclibRate) (i : ℕ) (v : ℝ) :
    (r.SetParameter i v).z2 = r.z2 := rfl

@[simp] lemma SetParameter_mu (r : ReaclibRate) (i : ℕ) (v : ℝ) :
    (r.SetParameter i v).mu_amu = r.mu_amu := rfl

@[simp] lemma SetParameter_fixedMask (r : ReaclibRate) (i : ℕ) (v : ℝ) :
    (r.SetParameter i v).fixedMask = r.fixedMask := rfl

@[simp] lemma SetParameter_parameters (r : ReaclibRate) (i : ℕ) (v : ℝ) :
    (r.SetParameter i v).parameters = r.parameters.set i v := rfl

@[simp] lemma FixParameter_numResonances (r : ReaclibRate) (i : ℕ) (v : ℝ) :
    (r.FixParameter i v).numResonances = r.numResonances := rfl

@[simp] lemma FixParameter_z1 (r : ReaclibRate) (i : ℕ) (v : ℝ) :
    (r.FixParameter i v).z1 = r.z1 := rfl

@[simp] lemma FixParameter_z2 (r : ReaclibRate) (i : ℕ) (v : ℝ) :
    (r.FixParameter i v).z2 = r.z2 := rfl

@[simp] lemma FixParameter_mu (r : ReaclibRate) (i : ℕ) (v : ℝ) :
    (r.FixParameter i v).mu_amu = r.mu_amu := rfl

@[simp] lemma FixParameter_parameters (r : ReaclibRate) (i : ℕ) (v : ℝ) :
    (r.FixParameter i v).parameters = r.parameters.set i v := rfl

@[simp] lemma FixParameter_fixedMask (r : ReaclibRate) (i : ℕ) (v : ℝ) :
    (r.FixParameter i v).fixedMask = r.fixedMask.set i true := rfl

/-! ### Facts about `initResonance` and the constructor loop -/

@[simp] lemma initResonance_numResonances (r : ReaclibRate) (i : ℕ) :
    (r.initResonance i).numResonances = r.numResonances := by
  simp [initResonance]

@[simp] lemma initResonance_z1 (r : ReaclibRate) (i : ℕ) :
    (r.initResonance i).z1 = r.z1 := by
  simp [initResonance]

@[simp] lemma initResonance_z2 (r : ReaclibRate) (i : ℕ) :
    (r.initResonance i).z2 = r.z2 := by
  simp [initResonance]

@[simp] lemma initResonance_mu (r : ReaclibRate) (i : ℕ) :
    (r.initResonance i).mu_amu = r.mu_amu := by
  simp [initResonance]

@[simp] lemma initResonance_parameters_length (r : ReaclibRate) (i : ℕ) :
    (r.initResonance i).parameters.length = r.parameters.length := by
  simp [initResonance]

@[simp] lemma initResonance_fixedMask_length (r : ReaclibRate) (i : ℕ) :
    (r.initResonance i).fixedMask.length = r.fixedMask.length := by
  simp [initResonance]

lemma initResonance_getD_outside (r : ReaclibRate) (i k : ℕ)
    (hk : k < 7 * (i + 1) ∨ 7 * (i + 1) + 6 < k) :
    (r.initResonance i).parameters.getD k 0 = r.parameters.getD k 0 := by
  simp only [initResonance, FixParameter_parameters, SetParameter_parameters,
    FixParameter_fixedMask, SetParameter_fixedMask]
  rw [getD_set_ne (by omega : 7 * (i + 1) + 6 ≠ k),
    getD_set_ne (by omega : 7 * (i + 1) + 5 ≠ k),
    getD_set_ne (by omega : 7 * (i + 1) + 4 ≠ k),
    getD_set_ne (by omega : 7 * (i + 1) + 3 ≠ k),
    getD_set_ne (by omega : 7 * (i + 1) + 2 ≠ k),
    getD_set_ne (by omega : 7 * (i + 1) + 1 ≠ k),
    getD_set_ne (by omega : 7 * (i + 1) + 0 ≠ k)]

lemma initResonance_getD_a6 (r : ReaclibRate) (i : ℕ)
    (h : 7 * (i + 1) + 6 < r.parameters.length) :
    (r.initResonance i).parameters.getD (7 * (i + 1) + 6) 0 = -(3:ℝ)/2 := by
  simp only [initResonance, FixParameter_parameters, SetParameter_parameters]
  rw [getD_set_self]
  simpa using h

lemma foldl_initResonance_numResonances (l : List ℕ) (r : ReaclibRate) :
    (l.foldl initResonance r).numResonances = r.numResonances := by
  induction l generalizing r with
  | nil => rfl
  | cons i l ih => simpa using ih (r.initResonance i)

lemma foldl_initResonance_z1 (l : List ℕ) (r : ReaclibRate) :
    (l.foldl initResonance r).z1 = r.z1 := by
  induction l generalizing r with
  | nil => rfl
  | cons i l ih => simpa using ih (r.initResonance i)

lemma foldl_initResonance_z2 (l : List ℕ) (r : ReaclibRate) :
    (l.foldl initResonance r).z2 = r.z2 := by
  induction l generalizing r with
  | nil => rfl
  | cons i l ih => simpa using ih (r.initResonance i)

lemma foldl_initResonance_mu (l : List ℕ) (r : ReaclibRate) :
    (l.foldl initResonance r).mu_amu = r.mu_amu := by
  induction l generalizing r with
  | nil => rfl
  | cons i l ih => simpa using ih (r.initResonance i)

lemma foldl_initResonance_parameters_length (l : List ℕ) (r : ReaclibRate) :
    (l.foldl initResonance r).parameters.length = r.parameters.length := by
  induction l generalizing r with
  | nil => rfl
  | cons i l ih => simpa using ih (r.initResonance i)

lemma foldl_initResonance_fixedMask_length (l : List ℕ) (r : ReaclibRate) :
    (l.foldl initResonance r).fixedMask.length = r.fixedMask.length := by
  induction l generalizing r with
  | nil => rfl
  | cons i l ih => simpa using ih (r.initResonance i)

lemma foldl_initResonance_getD_low (l : List ℕ) (r : ReaclibRate) (k : ℕ)
    (hk : k < 7) :
    (l.foldl initResonance r).parameters.getD k 0 = r.parameters.getD k 0 := by
  induction l generalizing r with
  | nil => rfl
  | cons i l ih =>
    rw [List.foldl_cons, ih (r.initResonance i),
      initResonance_getD_outside r i k (Or.inl (by omega))]

lemma range_foldl_initResonance_getD_a6 (n : ℕ) (r : ReaclibRate)
    (hlen : 7 * (n + 1) ≤ r.parameters.length) (i : ℕ) (hi : i < n) :
    ((List.range n).foldl initResonance r).parameters.getD (7 * (i + 1) + 6) 0
      = -(3:ℝ)/2 := by
  induction n generalizing i with
  | zero => omega
  | succ n ih =>
    rw [List.range_succ, List.foldl_append, List.foldl_cons, List.foldl_nil]
    rcases Nat.lt_or_ge i n with hin | hin
    · rw [initResonance_getD_outside _ n _ (Or.inl (by omega))]
      exact ih (by omega) i hin
    · have hin' : i = n := by omega
      subst hin'
      rw [initResonance_getD_a6]
      rw [foldl_initResonance_parameters_length]
      omega

/-! ### Facts about the constructed state -/

@[simp] lemma construct_numResonances (nm : String) (n z1 z2 : ℕ) (mu : ℝ) :
    (construct nm n z1 z2 mu).numResonances = n := by
  simp [construct, foldl_initResonance_numResonances]

@[simp] lemma construct_z1 (nm : String) (n z1 z2 : ℕ) (mu : ℝ) :
    (construct nm n z1 z2 mu).z1 = z1 := by
  simp [construct, foldl_initResonance_z1]

@[simp] lemma construct_z2 (nm : String) (n z1 z2 : ℕ) (mu : ℝ) :
    (construct nm n z1 z2 mu).z2 = z2 := by
  simp [construct, foldl_initResonance_z2]

@[simp] lemma construct_mu (nm : String) (n z1 z2 : ℕ) (mu : ℝ) :
    (construct nm n z1 z2 mu).mu_amu = mu := by
  simp [construct, foldl_initResonance_mu]

@[simp] lemma construct_parameters_length (nm : String) (n z1 z2 : ℕ)
    (mu : ℝ) :
    (construct nm n z1 z2 mu).parameters.length = 7 * (n + 1) := by
  simp [construct, foldl_initResonance_parameters_length]

@[simp] lemma construct_fixedMask_length (nm : String) (n z1 z2 : ℕ)
    (mu : ℝ) :
    (construct nm n z1 z2 mu).fixedMask.length = 7 * (n + 1) := by
  simp [construct, foldl_initResonance_fixedMask_length]

lemma construct_getD_zero (nm : String) (n z1 z2 : ℕ) (mu : ℝ) :
    (construct nm n z1 z2 mu).parameters.getD 0 0
      = Real.log (b_ * ((z1 : ℝ) * (z2 : ℝ) * mu) ^ ((1:ℝ)/3)) := by
  simp only [construct, SetParameter_parameters, FixParameter_parameters]
  rw [foldl_initResonance_getD_low _ _ 0 (by omega)]
  simp only [SetParameter_parameters, FixParameter_parameters]
  rw [getD_set_ne (by omega : 6 ≠ 0), getD_set_ne (by omega : 2 ≠ 0),
    getD_set_ne (by omega : 1 ≠ 0),
    getD_set_self (by simp only [List.length_replicate]; omega)]

lemma construct_getD_one (nm : String) (n z1 z2 : ℕ) (mu : ℝ) :
    (construct nm n z1 z2 mu).parameters.getD 1 0 = 0 := by
  simp only [construct, SetParameter_parameters, FixParameter_parameters]
  rw [foldl_initResonance_getD_low _ _ 1 (by omega)]
  simp only [SetParameter_parameters, FixParameter_parameters]
  rw [getD_set_ne (by omega : 6 ≠ 1), getD_set_ne (by omega : 2 ≠ 1),
    getD_set_self (by simp only [List.length_set, List.length_replicate]; omega)]

lemma construct_getD_two (nm : String) (n z1 z2 : ℕ) (mu : ℝ) :
    (construct nm n z1 z2 mu).parameters.getD 2 0
      = -4.2486 * (((z1 : ℝ) * (z2 : ℝ)) ^ (2:ℝ) * mu) ^ ((1:ℝ)/3) := by
  simp only [construct, SetParameter_parameters, FixParameter_parameters]
  rw [foldl_initResonance_getD_low _ _ 2 (by omega)]
  simp only [SetParameter_parameters, FixParameter_parameters]
  rw [getD_set_ne (by omega : 6 ≠ 2),
    getD_set_self (by simp only [List.length_set, List.length_replicate]; omega)]

lemma construct_getD_six (nm : String) (n z1 z2 : ℕ) (mu : ℝ) :
    (construct nm n z1 z2 mu).parameters.getD 6 0 = -2/3 := by
  simp only [construct, SetParameter_parameters, FixParameter_parameters]
  rw [foldl_initResonance_getD_low _ _ 6 (by omega)]
  simp only [SetParameter_parameters, FixParameter_parameters]
  rw [getD_set_self (by simp only [List.length_set, List.length_replicate]; omega)]

lemma construct_getD_resonance_a6 (nm : String) (n z1 z2 : ℕ) (mu : ℝ)
    (i : ℕ) (hi : i < n) :
    (construct nm n z1 z2 mu).parameters.getD (7 * (i + 1) + 6) 0
      = -(3:ℝ)/2 := by
  simp only [construct]
  rw [range_foldl_initResonance_getD_a6 n _ _ i hi]
  simp only [SetParameter_parameters, FixParameter_parameters,
    List.length_set, List.length_replicate]
  omega

/-! ### Preservation facts for the mutating operations -/

@[simp] lemma SetSFactor_numResonances (r : ReaclibRate) (s : ℝ) :
    (r.SetSFactor s).numResonances = r.numResonances := by
  simp [SetSFactor]

@[simp] lemma SetSFactor_z1 (r : ReaclibRate) (s : ℝ) :
    (r.SetSFactor s).z1 = r.z1 := by
  simp [SetSFactor]

@[simp] lemma SetSFactor_z2 (r : ReaclibRate) (s : ℝ) :
    (r.SetSFactor s).z2 = r.z2 := by
  simp [SetSFactor]

@[simp] lemma SetSFactor_mu (r : ReaclibRate) (s : ℝ) :
    (r.SetSFactor s).mu_amu = r.mu_amu := by
  simp [SetSFactor]

@[simp] lemma SetSFactor_parameters_length (r : ReaclibRate) (s : ℝ) :
    (r.SetSFactor s).parameters.length = r.parameters.length := by
  simp [SetSFactor]

@[simp] lemma SetSFactor_fixedMask_length (r : ReaclibRate) (s : ℝ) :
    (r.SetSFactor s).fixedMask.length = r.fixedMask.length := by
  simp [SetSFactor]

lemma SetSFactor_getD_ne (r : ReaclibRate) (s : ℝ) {k : ℕ} (hk : k ≠ 0) :
    (r.SetSFactor s).parameters.getD k 0 = r.parameters.getD k 0 := by
  simp only [SetSFactor, FixParameter_parameters]
  exact getD_set_ne (Ne.symm hk)

lemma SetSFactor_getD_zero (r : ReaclibRate) (s : ℝ)
    (h : 0 < r.parameters.length) :
    (r.SetSFactor s).parameters.getD 0 0
      = Real.log (b_ * ((r.z1 : ℝ) * (r.z2 : ℝ) * r.mu_amu) ^ ((1:ℝ)/3) * s) := by
  simp only [SetSFactor, FixParameter_parameters]
  exact getD_set_self h

@[simp] lemma SetResonance_numResonances (r : ReaclibRate) (id : ℕ)
    (e w : ℝ) : (r.SetResonance id e w).numResonances = r.numResonances := by
  unfold SetResonance
  split <;> simp

@[simp] lemma SetResonance_z1 (r : ReaclibRate) (id : ℕ) (e w : ℝ) :
    (r.SetResonance id e w).z1 = r.z1 := by
  unfold SetResonance
  split <;> simp

@[simp] lemma SetResonance_z2 (r : ReaclibRate) (id : ℕ) (e w : ℝ) :
    (r.SetResonance id e w).z2 = r.z2 := by
  unfold SetResonance
  split <;> simp

@[simp] lemma SetResonance_mu (r : ReaclibRate) (id : ℕ) (e w : ℝ) :
    (r.SetResonance id e w).mu_amu = r.mu_amu := by
  unfold SetResonance
  split <;> simp

@[simp] lemma SetResonance_parameters_length (r : ReaclibRate) (id : ℕ)
    (e w : ℝ) :
    (r.SetResonance id e w).parameters.length = r.parameters.length := by
  unfold SetResonance
  split <;> simp

@[simp] lemma SetResonance_fixedMask_length (r : ReaclibRate) (id : ℕ)
    (e w : ℝ) :
    (r.SetResonance id e w).fixedMask.length = r.fixedMask.length := by
  unfold SetResonance
  split <;> simp

lemma SetResonance_getD_ne (r : ReaclibRate) (id : ℕ) (e w : ℝ) {k : ℕ}
    (h0 : k ≠ 7 * (id + 1)) (h1 : k ≠ 7 * (id + 1) + 1) :
    (r.SetResonance id e w).parameters.getD k 0 = r.parameters.getD k 0 := by
  unfold SetResonance
  split
  · simp only [FixParameter_parameters, setResonanceTargets]
    rw [getD_set_ne (Ne.symm h1), getD_set_ne (by omega : 7 * (id + 1) + 0 ≠ k)]
  · rfl

lemma applyOp_numResonances (r : ReaclibRate) (op : RateOp) :
    (applyOp r op).numResonances = r.numResonances := by
  cases op <;> simp [applyOp]

lemma applyOp_z1 (r : ReaclibRate) (op : RateOp) :
    (applyOp r op).z1 = r.z1 := by
  cases op <;> simp [applyOp]

lemma applyOp_z2 (r : ReaclibRate) (op : RateOp) :
    (applyOp r op).z2 = r.z2 := by
  cases op <;> simp [applyOp]

lemma applyOp_mu (r : ReaclibRate) (op : RateOp) :
    (applyOp r op).mu_amu = r.mu_amu := by
  cases op <;> simp [applyOp]

lemma applyOp_parameters_length (r : ReaclibRate) (op : RateOp) :
    (applyOp r op).parameters.length = r.parameters.length := by
  cases op <;> simp [applyOp]

lemma applyOp_fixedMask_length (r : ReaclibRate) (op : RateOp) :
    (applyOp r op).fixedMask.length = r.fixedMask.length := by
  cases op <;> simp [applyOp]

lemma applyOp_getD_a6 (r : ReaclibRate) (op : RateOp) {k : ℕ}
    (hk : k % 7 = 6) :
    (applyOp r op).parameters.getD k 0 = r.parameters.getD k 0 := by
  cases op with
  | sfactor s => exact SetSFactor_getD_ne r s (by omega)
  | resonance id e w => exact SetResonance_getD_ne r id e w (by omega) (by omega)

lemma applyOps_numResonances (r : ReaclibRate) (ops : List RateOp) :
    (applyOps r ops).numResonances = r.numResonances := by
  induction ops generalizing r with
  | nil => rfl
  | cons op ops ih =>
    rw [applyOps, List.foldl_cons, ← applyOps, ih, applyOp_numResonances]

lemma applyOps_parameters_length (r : ReaclibRate) (ops : List RateOp) :
    (applyOps r ops).parameters.length = r.parameters.length := by
  induction ops generalizing r with
  | nil => rfl
  | cons op ops ih =>
    rw [applyOps, List.foldl_cons, ← applyOps, ih, applyOp_parameters_length]

lemma applyOps_fixedMask_length (r : ReaclibRate) (ops : List RateOp) :
    (applyOps r ops).fixedMask.length = r.fixedMask.length := by
  induction ops generalizing r with
  | nil => rfl
  | cons op ops ih =>
    rw [applyOps, List.foldl_cons, ← applyOps, ih, applyOp_fixedMask_length]

lemma applyOps_getD_a6 (r : ReaclibRate) (ops : List RateOp) {k : ℕ}
    (hk : k % 7 = 6) :
    (applyOps r ops).parameters.getD k 0 = r.parameters.getD k 0 := by
  induction ops generalizing r with
  | nil => rfl
  | cons op ops ih =>
    rw [applyOps, List.foldl_cons, ← applyOps, ih, applyOp_getD_a6 r op hk]

/-! ### The physical-quantity getters on constructed states -/

lemma construct_GetReducedMass (nm : String) (n z1 z2 : ℕ) (mu : ℝ)
    (h1 : 1 ≤ z1) (h2 : 1 ≤ z2) (hmu : 0 < mu) :
    (construct nm n z1 z2 mu).GetReducedMass = mu := by
  have hz1 : (1:ℝ) ≤ (z1 : ℝ) := by exact_mod_cast h1
  have hz2 : (1:ℝ) ≤ (z2 : ℝ) := by exact_mod_cast h2
  have hP : (0:ℝ) < (z1 : ℝ) * (z2 : ℝ) := by nlinarith
  simp only [GetReducedMass, GetParameter]
  rw [construct_getD_two, construct_z1, construct_z2]
  have h0 : (-4.2486 : ℝ) ≠ 0 := by norm_num
  rw [mul_div_cancel_left₀ _ h0]
  have hX : (0:ℝ) ≤ ((z1 : ℝ) * (z2 : ℝ)) ^ (2:ℝ) * mu :=
    le_of_lt (mul_pos (Real.rpow_pos_of_pos hP 2) hmu)
  rw [← Real.rpow_mul hX]
  norm_num
  rw [mul_div_cancel_left₀ _
    (show (((z1 : ℝ) * (z2 : ℝ)) ^ 2 : ℝ) ≠ 0 by positivity)]

lemma SetSFactor_GetReducedMass (r : ReaclibRate) (s : ℝ) :
    (r.SetSFactor s).GetReducedMass = r.GetReducedMass := by
  simp only [GetReducedMass, GetParameter, SetSFactor_z1, SetSFactor_z2]
  rw [SetSFactor_getD_ne r s (by omega)]

lemma b_pos : (0:ℝ) < b_ := by norm_num [b_]

/-! ### Closed form of `Evaluate` -/

lemma foldl_range_add (g : ℕ → ℝ) (n : ℕ) (a : ℝ) :
    (List.range n).foldl (fun acc i => acc + g i) a
      = a + ∑ i in Finset.range n, g i := by
  induction n generalizing a with
  | zero => simp
  | succ n ih =>
    rw [List.range_succ, List.foldl_append, ih, List.foldl_cons, List.foldl_nil,
      Finset.sum_range_succ]
    ring

lemma evalComponent_eq (t9 : ℝ) (par : List ℝ) (i : ℕ) :
    evalComponent t9 par i
      = par.getD (7 * i + 0) 0 + par.getD (7 * i + 6) 0 * Real.log t9 +
        ∑ j in Finset.Icc 1 5,
          par.getD (7 * i + j) 0 * t9 ^ ((2 * (j:ℝ) - 5) / 3) := by
  rw [show Finset.Icc 1 5 = ({1, 2, 3, 4, 5} : Finset ℕ) from by decide]
  simp only [evalComponent, show List.range' 1 5 = [1, 2, 3, 4, 5] from rfl,
    List.foldl_cons, List.foldl_nil]
  simp [Finset.sum_insert, Finset.mem_insert]
  norm_num
  ring

/-! ### Claim theorems -/

/-- C1 (code evaluation at the failing input): for the model constructed with
`numResonances = 1`, `z1 = z2 = 1`, `mu = 1`, after `SetResonance(0, 1, 1)`
(`E = 1 > 0`, `W = 1 > 0`), `GetResonanceEnergy(0)` returns `0`, not the
energy `E = 1` that was set: the setter writes block `7*(0+1)` while the
getter reads block `7*0`. -/
theorem setResonance_roundtrip_reads_wrong_block :
    ((construct "r" 1 1 1 1).SetResonance 0 1 1).GetResonanceEnergy 0 = 0 := by
  have hcond : ¬ ((construct "r" 1 1 1 1).SetResonance 0 1 1).numResonances
      < 0 := by
    simp
  simp only [GetResonanceEnergy, GetParameter]
  rw [if_neg hcond,
    SetResonance_getD_ne _ _ _ _ (by omega) (by omega),
    construct_getD_one, zero_div]

/-- C2: for every `t9 > 0` and parameter vector of length
`7*(numResonances+1)`, `Evaluate(t9, parameters)` is the sum over blocks
`i` in `0..numResonances` of
`exp(a(i,0) + a(i,6)*ln(t9) + Σ_{j=1}^{5} a(i,j) * t9^((2j-5)/3))`,
where `a(i,j)` is the parameter at index `7*i + j`. -/
theorem evaluate_reaclib_sum (r : ReaclibRate) (t9 : ℝ) (par : List ℝ)
    (ht9 : 0 < t9) (hlen : par.length = 7 * (r.numResonances + 1)) :
    r.Evaluate t9 par
      = ∑ i in Finset.range (r.numResonances + 1),
          Real.exp (par.getD (7 * i + 0) 0 +
            par.getD (7 * i + 6) 0 * Real.log t9 +
            ∑ j in Finset.Icc 1 5,
              par.getD (7 * i + j) 0 * t9 ^ ((2 * (j:ℝ) - 5) / 3)) := by
  simp only [Evaluate]
  rw [foldl_range_add (fun i => Real.exp (evalComponent t9 par i)), zero_add]
  exact Finset.sum_congr rfl fun i _ => by rw [evalComponent_eq]

/-- C2 witness: the hypotheses and conclusion of `evaluate_reaclib_sum` at
`numResonances = 0`, `t9 = 2`, `par = replicate 7 0`. -/
theorem evaluate_reaclib_sum_witness :
    (0:ℝ) < 2 ∧
    (List.replicate 7 (0:ℝ)).length
      = 7 * ((construct "w2" 0 1 1 1).numResonances + 1) ∧
    (construct "w2" 0 1 1 1).Evaluate 2 (List.replicate 7 (0:ℝ))
      = ∑ i in Finset.range ((construct "w2" 0 1 1 1).numResonances + 1),
          Real.exp ((List.replicate 7 (0:ℝ)).getD (7 * i + 0) 0 +
            (List.replicate 7 (0:ℝ)).getD (7 * i + 6) 0 * Real.log 2 +
            ∑ j in Finset.Icc 1 5,
              (List.replicate 7 (0:ℝ)).getD (7 * i + j) 0 *
                (2:ℝ) ^ ((2 * (j:ℝ) - 5) / 3)) :=
  ⟨zero_lt_two, by simp,
    evaluate_reaclib_sum (construct "w2" 0 1 1 1) 2 (List.replicate 7 (0:ℝ))
      zero_lt_two (by simp)⟩

/-- C3: on any model reached from a construction by `SetSFactor` and
`SetResonance` calls, calling `SetResonance` with a `resonanceId` outside the
valid range `[0, numResonances)` is a silent no-op: neither the parameter
vector nor the fixed mask changes. -/
theorem setResonance_out_of_range_noop (nm : String) (n z1 z2 : ℕ) (mu : ℝ)
    (ops : List RateOp) (id : ℕ) (e w : ℝ) (hid : ¬ id < n) :
    ((applyOps (construct nm n z1 z2 mu) ops).SetResonance id e w).parameters
        = (applyOps (construct nm n z1 z2 mu) ops).parameters ∧
    ((applyOps (construct nm n z1 z2 mu) ops).SetResonance id e w).fixedMask
        = (applyOps (construct nm n z1 z2 mu) ops).fixedMask := by
  have hnum : (applyOps (construct nm n z1 z2 mu) ops).numResonances = n := by
    rw [applyOps_numResonances, construct_numResonances]
  have hplen : (applyOps (construct nm n z1 z2 mu) ops).parameters.length
      = 7 * (n + 1) := by
    rw [applyOps_parameters_length, construct_parameters_length]
  have hmlen : (applyOps (construct nm n z1 z2 mu) ops).fixedMask.length
      = 7 * (n + 1) := by
    rw [applyOps_fixedMask_length, construct_fixedMask_length]
  unfold SetResonance
  rcases Nat.lt_or_ge n id with h | h
  · rw [if_neg]
    · exact ⟨rfl, rfl⟩
    · simp only [setResonanceGuard, hnum, decide_eq_true_eq]
      omega
  · have hid' : id = n := by omega
    subst hid'
    have hguard :
        setResonanceGuard (applyOps (construct nm id z1 z2 mu) ops) id
          = true := by
      simp [setResonanceGuard, hnum]
    rw [if_pos hguard]
    refine ⟨?_, ?_⟩
    · simp only [FixParameter_parameters, setResonanceTargets]
      rw [List.set_eq_of_length_le
          (by simp only [List.length_set, hplen]; omega),
        List.set_eq_of_length_le (by simp only [hplen]; omega)]
    · simp only [FixParameter_fixedMask, setResonanceTargets]
      rw [List.set_eq_of_length_le
          (by simp only [List.length_set, hmlen]; omega),
        List.set_eq_of_length_le (by simp only [hmlen]; omega)]

/-- C3 witness: the hypothesis and conclusion of
`setResonance_out_of_range_noop` at `numResonances = 0`, no prior mutations,
`resonanceId = 0`. -/
theorem setResonance_out_of_range_noop_witness :
    ¬ (0:ℕ) < 0 ∧
    ((applyOps (construct "w3" 0 1 1 1) []).SetResonance 0 1 1).parameters
        = (applyOps (construct "w3" 0 1 1 1) []).parameters ∧
    ((applyOps (construct "w3" 0 1 1 1) []).SetResonance 0 1 1).fixedMask
        = (applyOps (construct "w3" 0 1 1 1) []).fixedMask :=
  ⟨by decide,
    (setResonance_out_of_range_noop "w3" 0 1 1 1 [] 0 1 1 (by decide)).1,
    (setResonance_out_of_range_noop "w3" 0 1 1 1 [] 0 1 1 (by decide)).2⟩

/-- C4: for every constructed model, `SetResonance(numResonances, E, W)`
passes the internal range check `resonanceId <= numResonances_`, and the two
indices it then writes, `7*(numResonances+1)+0` and `7*(numResonances+1)+1`,
lie past the end of the parameter vector (whose length is
`7*(numResonances+1)`). -/
theorem setResonance_boundary_check_overflow (nm : String) (n z1 z2 : ℕ)
    (mu : ℝ) :
    setResonanceGuard (construct nm n z1 z2 mu) n = true ∧
    (construct nm n z1 z2 mu).parameters.length
      ≤ (setResonanceTargets n).1 ∧
    (construct nm n z1 z2 mu).parameters.length
      ≤ (setResonanceTargets n).2 := by
  refine ⟨?_, ?_, ?_⟩
  · simp [setResonanceGuard]
  · rw [construct_parameters_length]
    simp only [setResonanceTargets]
    omega
  · rw [construct_parameters_length]
    simp only [setResonanceTargets]
    omega

/-- C5: for every construction with `z1 >= 1`, `z2 >= 1`, `mu > 0` and any
`numResonances`, `GetReducedMass()` immediately after construction returns
`mu` (exactly, in the real-arithmetic model). -/
theorem getReducedMass_roundtrip (nm : String) (n z1 z2 : ℕ) (mu : ℝ)
    (h1 : 1 ≤ z1) (h2 : 1 ≤ z2) (hmu : 0 < mu) :
    (construct nm n z1 z2 mu).GetReducedMass = mu :=
  construct_GetReducedMass nm n z1 z2 mu h1 h2 hmu

/-- C5 witness: the hypotheses and conclusion of `getReducedMass_roundtrip`
at `numResonances = 0`, `z1 = z2 = 1`, `mu = 1`. -/
theorem getReducedMass_roundtrip_witness :
    (1:ℕ) ≤ 1 ∧ (1:ℕ) ≤ 1 ∧ (0:ℝ) < 1 ∧
    (construct "w5" 0 1 1 1).GetReducedMass = 1 :=
  ⟨by decide, by decide, one_pos,
    getReducedMass_roundtrip "w5" 0 1 1 1 (by decide) (by decide) one_pos⟩

/-- C6: for every valid construction and every `s > 0`, calling
`SetSFactor(s)` and then `GetSFactor()` returns `s` (exactly, in the
real-arithmetic model). -/
theorem sfactor_roundtrip (nm : String) (n z1 z2 : ℕ) (mu s : ℝ)
    (h1 : 1 ≤ z1) (h2 : 1 ≤ z2) (hmu : 0 < mu) (hs : 0 < s) :
    ((construct nm n z1 z2 mu).SetSFactor s).GetSFactor = s := by
  have hz1 : (1:ℝ) ≤ (z1 : ℝ) := by exact_mod_cast h1
  have hz2 : (1:ℝ) ≤ (z2 : ℝ) := by exact_mod_cast h2
  have hlen : 0 < (construct nm n z1 z2 mu).parameters.length := by
    rw [construct_parameters_length]
    omega
  simp only [GetSFactor, GetParameter]
  rw [SetSFactor_getD_zero _ _ hlen, SetSFactor_GetReducedMass,
    construct_GetReducedMass nm n z1 z2 mu h1 h2 hmu, SetSFactor_z1,
    SetSFactor_z2, construct_z1, construct_z2, construct_mu]
  have hQ : (0:ℝ) < ((z1 : ℝ) * (z2 : ℝ) * mu) ^ ((1:ℝ)/3) :=
    Real.rpow_pos_of_pos
      (mul_pos (mul_pos (by linarith) (by linarith)) hmu) _
  have hb : (0:ℝ) < b_ := b_pos
  rw [Real.exp_log (mul_pos (mul_pos hb hQ) hs)]
  field_simp

/-- C6 witness: the hypotheses and conclusion of `sfactor_roundtrip` at
`numResonances = 0`, `z1 = z2 = 1`, `mu = 1`, `s = 2`. -/
theorem sfactor_roundtrip_witness :
    (1:ℕ) ≤ 1 ∧ (1:ℕ) ≤ 1 ∧ (0:ℝ) < 1 ∧ (0:ℝ) < 2 ∧
    ((construct "w6" 0 1 1 1).SetSFactor 2).GetSFactor = 2 :=
  ⟨by decide, by decide, one_pos, zero_lt_two,
    sfactor_roundtrip "w6" 0 1 1 1 2 (by decide) (by decide) one_pos
      zero_lt_two⟩

/-- C7: for every model state and every `resonanceId > numResonances`,
`GetResonanceEnergy` and `GetResonanceStrength` both return the sentinel
`-1`. -/
theorem resonance_getters_out_of_range (r : ReaclibRate) (id : ℕ)
    (h : r.numResonances < id) :
    r.GetResonanceEnergy id = -1 ∧ r.GetResonanceStrength id = -1 := by
  constructor
  · rw [GetResonanceEnergy, if_pos h]
  · rw [GetResonanceStrength, if_pos h]

/-- C7 witness: the hypothesis and conclusion of
`resonance_getters_out_of_range` at `numResonances = 0`, `resonanceId = 1`. -/
theorem resonance_getters_out_of_range_witness :
    (construct "w7" 0 1 1 1).numResonances < 1 ∧
    (construct "w7" 0 1 1 1).GetResonanceEnergy 1 = -1 ∧
    (construct "w7" 0 1 1 1).GetResonanceStrength 1 = -1 :=
  ⟨by simp,
    (resonance_getters_out_of_range (construct "w7" 0 1 1 1) 1 (by simp)).1,
    (resonance_getters_out_of_range (construct "w7" 0 1 1 1) 1 (by simp)).2⟩

/-- C8: for every `t9 > 0` and every real parameter vector of length
`7*(numResonances+1)`, `Evaluate(t9, parameters)` is strictly positive (it is
a sum of `numResonances+1` exponentials). -/
theorem evaluate_strictly_positive (r : ReaclibRate) (t9 : ℝ) (par : List ℝ)
    (ht9 : 0 < t9) (hlen : par.length = 7 * (r.numResonances + 1)) :
    0 < r.Evaluate t9 par := by
  simp only [Evaluate]
  rw [foldl_range_add (fun i => Real.exp (evalComponent t9 par i)), zero_add]
  exact Finset.sum_pos (fun i _ => Real.exp_pos _) Finset.nonempty_range_succ

/-- C8 witness: the hypotheses and conclusion of `evaluate_strictly_positive`
at `numResonances = 0`, `t9 = 1`, `par = replicate 7 0`. -/
theorem evaluate_strictly_positive_witness :
    (0:ℝ) < 1 ∧
    (List.replicate 7 (0:ℝ)).length
      = 7 * ((construct "w8" 0 1 1 1).numResonances + 1) ∧
    0 < (construct "w8" 0 1 1 1).Evaluate 1 (List.replicate 7 (0:ℝ)) :=
  ⟨one_pos, by simp,
    evaluate_strictly_positive (construct "w8" 0 1 1 1) 1
      (List.replicate 7 (0:ℝ)) one_pos (by simp)⟩

/-- C9: after any sequence of `SetSFactor` and `SetResonance` calls following
construction, the a6 coefficient of the non-resonant block (index 6) still
holds `-2/3` and the a6 coefficient of every resonance block
(index `7*(i+1)+6` for `i < numResonances`) still holds `-3/2`. -/
theorem a6_invariant (nm : String) (n z1 z2 : ℕ) (mu : ℝ)
    (ops : List RateOp) :
    (applyOps (construct nm n z1 z2 mu) ops).parameters.getD 6 0 = -2/3 ∧
    ∀ i, i < n →
      (applyOps (construct nm n z1 z2 mu) ops).parameters.getD
        (7 * (i + 1) + 6) 0 = -(3:ℝ)/2 := by
  constructor
  · rw [applyOps_getD_a6 _ _ (by omega : (6:ℕ) % 7 = 6), construct_getD_six]
  · intro i hi
    rw [applyOps_getD_a6 _ _ (by omega : (7 * (i + 1) + 6) % 7 = 6),
      construct_getD_resonance_a6 nm n z1 z2 mu i hi]

/-- C9 witness: the conclusion of `a6_invariant` at `numResonances = 1`
after a `SetSFactor` call and a `SetResonance` call, with the inner bound
instantiated at resonance block `i = 0`. -/
theorem a6_invariant_witness :
    (0:ℕ) < 1 ∧
    (applyOps (construct "w9" 1 1 1 1)
        [RateOp.sfactor 1, RateOp.resonance 0 2 3]).parameters.getD 6 0
      = -2/3 ∧
    (applyOps (construct "w9" 1 1 1 1)
        [RateOp.sfactor 1, RateOp.resonance 0 2 3]).parameters.getD
        (7 * (0 + 1) + 6) 0 = -(3:ℝ)/2 :=
  ⟨by decide,
    (a6_invariant "w9" 1 1 1 1 [RateOp.sfactor 1, RateOp.resonance 0 2 3]).1,
    (a6_invariant "w9" 1 1 1 1
      [RateOp.sfactor 1, RateOp.resonance 0 2 3]).2 0 (by decide)⟩

/-- C10: for every construction with `z1 >= 1`, `z2 >= 1`, `mu > 0`, calling
`GetSFactor()` immediately after construction returns `1`: the constructor
seeds the non-resonant a0 to `log(b_ * (z1*z2*mu)^(1/3))`, exactly the value
`GetSFactor` divides back out. -/
theorem initial_sfactor_is_one (nm : String) (n z1 z2 : ℕ) (mu : ℝ)
    (h1 : 1 ≤ z1) (h2 : 1 ≤ z2) (hmu : 0 < mu) :
    (construct nm n z1 z2 mu).GetSFactor = 1 := by
  have hz1 : (1:ℝ) ≤ (z1 : ℝ) := by exact_mod_cast h1
  have hz2 : (1:ℝ) ≤ (z2 : ℝ) := by exact_mod_cast h2
  simp only [GetSFactor, GetParameter]
  rw [construct_getD_zero,
    construct_GetReducedMass nm n z1 z2 mu h1 h2 hmu, construct_z1,
    construct_z2]
  have hQ : (0:ℝ) < ((z1 : ℝ) * (z2 : ℝ) * mu) ^ ((1:ℝ)/3) :=
    Real.rpow_pos_of_pos
      (mul_pos (mul_pos (by linarith) (by linarith)) hmu) _
  rw [Real.exp_log (mul_pos b_pos hQ), div_div,
    div_self (ne_of_gt (mul_pos b_pos hQ))]

/-- C10 witness: the hypotheses and conclusion of `initial_sfactor_is_one`
at `numResonances = 2`, `z1 = z2 = 1`, `mu = 1`. -/
theorem initial_sfactor_is_one_witness :
    (1:ℕ) ≤ 1 ∧ (1:ℕ) ≤ 1 ∧ (0:ℝ) < 1 ∧
    (construct "wA" 2 1 1 1).GetSFactor = 1 :=
  ⟨by decide, by decide, one_pos,
    initial_sfactor_is_one "wA" 2 1 1 1 (by decide) (by decide) one_pos⟩

end ReaclibRate
